import Mathlib

/-!
# Verification of `tcp-port-used` (src/index.js)

A shallow embedding of the library's core: the one-shot probe `check`,
the polling `waitForStatus` session state machine, and the thin wait
wrappers (`waitUntilFree`, `waitUntilUsed`, `waitUntilFreeOnHost`,
`waitUntilUsedOnHost`).

JavaScript values that appear in option fields are modelled by `JSVal`
(numbers as `Int`; the fractional numbers JS allows play no role in any
property considered here).  Options objects are `Opts` records; object
identity (the source mutates caller-owned objects in place) is modelled
by a small store of `Opts` indexed by `Nat` references.

Asynchrony is modelled by explicit event systems: the probe consumes a
list of socket events, and a `waitForStatus` session is a state machine
whose events are the deadline timer firing, an outstanding retry timer
firing, and an in-flight probe settling with a value or an error.
-/

set_option maxHeartbeats 1000000

namespace TcpPortUsed

/-- A JavaScript value as it can appear in an options field of this
library: `undefined`, a number, a string, or a boolean. -/
inductive JSVal where
  | undef
  | num (n : Int)
  | str (s : String)
  | boolV (b : Bool)
deriving DecidableEq, Repr, Inhabited

/-- Modelled from the spec: `is.port` of the external `is2` package.
The spec says a port "must be an integer in [0, 65535]"; "missing,
non-numeric, or outside [0,65535]" is invalid. -/
def isPort : JSVal → Bool
  | .num n => 0 ≤ n && n ≤ 65535
  | _ => false

/-- Modelled from the spec: `is.bool` of the external `is2` package:
true exactly for boolean values. -/
def isBool : JSVal → Bool
  | .boolV _ => true
  | _ => false

/-- Modelled from the spec: `is.positiveInt` of the external `is2`
package: true exactly for numbers that are positive integers. -/
def isPositiveInt : JSVal → Bool
  | .num n => 0 < n
  | _ => false

/-- Model of `util.inspect` restricted to the `JSVal` fragment: numbers and
booleans print bare, strings print quoted, `undefined` prints as the
word `undefined`. -/
def inspect : JSVal → String
  | .undef => "undefined"
  | .num n => toString n
  | .str s => "'" ++ s ++ "'"
  | .boolV b => toString b

/-- The `LOCALHOST` constant of src/index.js (line 15). -/
def LOCALHOST : JSVal := .str "127.0.0.1"

/-- The `TIMEOUT` default of src/index.js (line 13). -/
def TIMEOUT : JSVal := .num 2000

/-- The `RETRY_TIME` default of src/index.js (line 14). -/
def RETRY_TIME : JSVal := .num 250

/-- An options object: the five properties produced by
`makeOptionsObj` in src/index.js (lines 42-50).  Absent properties are
`JSVal.undef`. -/
structure Opts where
  port : JSVal
  host : JSVal
  inUse : JSVal
  retryTimeMs : JSVal
  timeOutMs : JSVal
deriving DecidableEq, Repr, Inhabited

/-- Function `makeOptionsObj` of src/index.js (lines 42-50). -/
def makeOptionsObj (port host inUse retryTimeMs timeOutMs : JSVal) : Opts :=
  { port := port, host := host, inUse := inUse,
    retryTimeMs := retryTimeMs, timeOutMs := timeOutMs }

/-! ## The probe: `check` (src/index.js lines 71-118)

`check` registers `once` listeners for `connect` and `error` on a fresh
socket.  The socket's behaviour is modelled as a list of `SockEv`
events delivered in order; the handlers run exactly the statement
sequences of the source, modelled as `CAct` action lists interpreted
over a `CheckState`. -/

/-- An event the socket can emit towards `check`'s listeners. -/
inductive SockEv where
  | connect
  | sockError (code : String)
deriving DecidableEq, Repr

/-- One primitive statement executed by `check`'s callbacks:
settling the deferred promise, or one teardown step of `cleanUp`
(src/index.js lines 84-92). -/
inductive CAct where
  | resolveA (b : Bool)
  | rejectA (e : String)
  | rmConnectLs
  | rmErrorLs
  | endSock
  | destroySock
  | unrefSock
deriving DecidableEq, Repr

/-- The body of `cleanUp` (src/index.js lines 84-92): remove both
listeners, half-close, destroy, unref. -/
def cleanUpTrace : List CAct :=
  [.rmConnectLs, .rmErrorLs, .endSock, .destroySock, .unrefSock]

/-- The body of `onConnectCb` (src/index.js lines 94-97): resolve with
the current `inUse` flag (still `true` on this path), then `cleanUp`. -/
def onConnectTrace : List CAct :=
  [.resolveA true] ++ cleanUpTrace

/-- The body of `onErrorCb` (src/index.js lines 99-107): on
`ECONNREFUSED` set `inUse = false` and resolve with it, otherwise
reject with the error; then `cleanUp`. -/
def onErrorTrace (code : String) : List CAct :=
  (if code = "ECONNREFUSED" then [.resolveA false] else [.rejectA code]) ++ cleanUpTrace

instance {ε α : Type} [DecidableEq ε] [DecidableEq α] : DecidableEq (Except ε α) := fun a b =>
  match a, b with
  | .ok x, .ok y =>
      if h : x = y then .isTrue (by rw [h]) else .isFalse (by intro hc; cases hc; exact h rfl)
  | .error x, .error y =>
      if h : x = y then .isTrue (by rw [h]) else .isFalse (by intro hc; cases hc; exact h rfl)
  | .ok _, .error _ => .isFalse (by intro hc; cases hc)
  | .error _, .ok _ => .isFalse (by intro hc; cases hc)

/-- The observable state of one `check` call: whether a socket was
created, which listeners are still attached, the socket teardown flags,
and the promise settlement (`none` while pending). -/
structure CheckState where
  socketCreated : Bool
  connectLs : Bool
  errorLs : Bool
  ended : Bool
  destroyed : Bool
  unrefd : Bool
  result : Option (Except String Bool)
deriving DecidableEq, Repr

/-- A promise settles at most once: a second resolve/reject is a
no-op. -/
def settleOnce {α : Type} (cur : Option α) (v : α) : Option α :=
  match cur with
  | some r => some r
  | none => some v

/-- Interpret one callback statement on the check state. -/
def applyCAct (s : CheckState) : CAct → CheckState
  | .resolveA b => { s with result := settleOnce s.result (.ok b) }
  | .rejectA e => { s with result := settleOnce s.result (.error e) }
  | .rmConnectLs => { s with connectLs := false }
  | .rmErrorLs => { s with errorLs := false }
  | .endSock => { s with ended := true }
  | .destroySock => { s with destroyed := true }
  | .unrefSock => { s with unrefd := true }

/-- Deliver one socket event: the corresponding callback body runs iff
its listener is still attached (they are registered with `once` and
removed by `cleanUp`, so the first event detaches both). -/
def checkStep (s : CheckState) : SockEv → CheckState
  | .connect =>
      if s.connectLs then onConnectTrace.foldl applyCAct s else s
  | .sockError code =>
      if s.errorLs then (onErrorTrace code).foldl applyCAct s else s

/-- The state of `check` right after a socket is created and both
listeners are registered (src/index.js lines 109-115); the mutable
`inUse` variable starts `true` (line 73). -/
def checkInitState : CheckState :=
  { socketCreated := true, connectLs := true, errorLs := true,
    ended := false, destroyed := false, unrefd := false, result := none }

/-- Function `check(port, host)` (src/index.js lines 71-118), positional form:
validate the port; on failure reject with the `invalid port` message
before any socket is created; otherwise create the socket and process
the socket's events in order. -/
def check (port : JSVal) (events : List SockEv) : CheckState :=
  if isPort port then
    events.foldl checkStep checkInitState
  else
    { socketCreated := false, connectLs := false, errorLs := false,
      ended := false, destroyed := false, unrefd := false,
      result := some (.error ("invalid port: " ++ inspect port)) }

/-! ## The poller: `waitForStatus` (src/index.js lines 143-212)

The session owns a deadline timer, at most one retry timer, and the
outer deferred promise.  After validation and defaulting the source
arms the deadline timer (line 185) and calls `doCheck()` (line 210),
putting one probe in flight.  From then on the session evolves by
events: the deadline fires (`timeoutFunc`, lines 179-183), a pending
retry timer fires (the `setTimeout` callback of line 197, which calls
`doCheck` again), or an in-flight probe settles (the two handlers of
lines 189-207).  `probes` counts in-flight `check` promises and
`retryTimers` the outstanding retry timers with their delays; both
counts are implicit in the source's single `retryId` variable and its
call structure. -/

/-- The per-session configuration extracted from the normalized
options: the desired boolean status and the (already defaulted) retry
delay in milliseconds. -/
structure WaitCfg where
  desired : Bool
  retryMs : Int
deriving DecidableEq, Repr

/-- The mutable state of one `waitForStatus` session. -/
structure SessionState where
  timedOut : Bool
  deadlineArmed : Bool
  retryTimers : List Int
  probes : Nat
  settled : Option (Except String Unit)
deriving DecidableEq, Repr

/-- The session state right after line 210 of src/index.js: the
deadline timer is armed, the first probe is already in flight (no
retry timer precedes attempt #1), nothing is settled. -/
def wfsInit : SessionState :=
  { timedOut := false, deadlineArmed := true, retryTimers := [],
    probes := 1, settled := none }

/-- An event a running session can receive. -/
inductive WEv where
  | deadline
  | retryFire
  | probeOk (used : Bool)
  | probeErr (e : String)
deriving DecidableEq, Repr

/-- Which events can actually occur in a state: the deadline callback
runs only while its timer is armed (clearTimeout cancels it), a retry
callback only while a retry timer is outstanding, and a probe handler
only while a probe is in flight. -/
def WEnabled (s : SessionState) : WEv → Prop
  | .deadline => s.deadlineArmed = true
  | .retryFire => s.retryTimers ≠ []
  | .probeOk _ => 0 < s.probes
  | .probeErr _ => 0 < s.probes

instance (s : SessionState) (e : WEv) : Decidable (WEnabled s e) := by
  cases e <;> simp only [WEnabled] <;> infer_instance

/-- Session `cleanUp` (src/index.js lines 170-177): clear the
deadline timer and the (single, by the session invariant) outstanding
retry timer. -/
def wfsCleanUp (s : SessionState) : SessionState :=
  { s with deadlineArmed := false, retryTimers := [] }

/-- One session transition, the exact statement sequences of
src/index.js:

* `deadline` — `timeoutFunc` (lines 179-183): set `timedOut`, clear
  both timers, reject the deferred with `Error('timeout')`;
* `retryFire` — the callback of line 197: the timer is consumed and
  `doCheck()` puts a new probe in flight;
* `probeOk used` — the fulfillment handler (lines 189-200): the probe
  leaves flight; if `timedOut`, return (discard); if `used` equals the
  desired status, resolve and `cleanUp`; else arm a new retry timer for
  `retryMs` (line 197), storing its handle in `retryId`;
* `probeErr e` — the rejection handler (lines 201-207): the probe
  leaves flight; if `timedOut`, return (discard); else reject the
  deferred with `e` and `cleanUp`. -/
def wfsStep (cfg : WaitCfg) (s : SessionState) : WEv → SessionState
  | .deadline =>
      let s := { s with timedOut := true }
      let s := wfsCleanUp s
      { s with settled := settleOnce s.settled (.error "timeout") }
  | .retryFire =>
      { s with retryTimers := s.retryTimers.tail, probes := s.probes + 1 }
  | .probeOk used =>
      let s := { s with probes := s.probes - 1 }
      if s.timedOut then s
      else if used = cfg.desired then
        wfsCleanUp { s with settled := settleOnce s.settled (.ok ()) }
      else
        { s with retryTimers := cfg.retryMs :: s.retryTimers }
  | .probeErr e =>
      let s := { s with probes := s.probes - 1 }
      if s.timedOut then s
      else
        wfsCleanUp { s with settled := settleOnce s.settled (.error e) }

/-- The states a session can actually be in: `wfsInit` and everything
reachable from it by enabled transitions. -/
inductive WReachable (cfg : WaitCfg) : SessionState → Prop where
  | init : WReachable cfg wfsInit
  | next {s : SessionState} {e : WEv} :
      WReachable cfg s → WEnabled s e → WReachable cfg (wfsStep cfg s e)

/-- Validation and defaulting of `waitForStatus` (src/index.js lines
157-168): reject unless `inUse` is a boolean; then overwrite
`retryTimeMs` with 250 unless it is a positive integer, and likewise
`timeOutMs` with 2000 — no timer exists yet on the rejection path. -/
def wfsNormalize (opts : Opts) : Except String Opts :=
  if ¬ isBool opts.inUse then
    .error "inUse must be a boolean"
  else
    let opts := if isPositiveInt opts.retryTimeMs then opts
                else { opts with retryTimeMs := RETRY_TIME }
    let opts := if isPositiveInt opts.timeOutMs then opts
                else { opts with timeOutMs := TIMEOUT }
    .ok opts

/-- Read the session configuration off a normalized options object. -/
def optsCfg (opts : Opts) : WaitCfg :=
  { desired := match opts.inUse with | .boolV b => b | _ => false,
    retryMs := match opts.retryTimeMs with | .num n => n | _ => 0 }

/-- Function `waitForStatus` up to its first suspension (src/index.js lines
143-211): validate and default; on success the deadline timer is armed
(line 185) and the first probe is issued immediately (line 210) —
`wfsInit` records both.  Returns the normalized options together with
the initial session state, or the immediate rejection. -/
def waitForStatus_start (opts : Opts) : Except String (Opts × SessionState) :=
  match wfsNormalize opts with
  | .error e => .error e
  | .ok o => .ok (o, wfsInit)

/-! ## Object identity and the wait wrappers
(src/index.js lines 234-347)

JavaScript objects are references: `waitForStatus` writes its defaults
through the reference it was given, and `waitUntilUsedOnHost` writes
`inUse` through it.  A `Store` is the heap of options objects; a
reference is an index into it. -/

/-- The heap of options objects live during a call. -/
structure Store where
  objs : List Opts
deriving DecidableEq, Repr

/-- Dereference. -/
def Store.getObj (σ : Store) (r : Nat) : Opts := σ.objs.getD r default

/-- Write through a reference. -/
def Store.setObj (σ : Store) (r : Nat) (o : Opts) : Store := ⟨σ.objs.set r o⟩

/-- Allocate a fresh object (what `Object.assign({}, ...)` does). -/
def Store.alloc (σ : Store) (o : Opts) : Store × Nat :=
  (⟨σ.objs ++ [o]⟩, σ.objs.length)

/-- Function `waitForStatus(port)` when `port` is an object (src/index.js lines
143-212, object branch of lines 151-155): `opts` aliases the caller's
object, so the defaulting assignments of lines 162-168 mutate it in
place; on the `inUse` rejection path (lines 157-160) nothing is
written and no timer is armed. -/
def waitForStatus_obj (σ : Store) (r : Nat) : Store × Except String (Opts × SessionState) :=
  let opts := σ.getObj r
  if ¬ isBool opts.inUse then (σ, .error "inUse must be a boolean")
  else
    let opts := if isPositiveInt opts.retryTimeMs then opts
                else { opts with retryTimeMs := RETRY_TIME }
    let opts := if isPositiveInt opts.timeOutMs then opts
                else { opts with timeOutMs := TIMEOUT }
    (σ.setObj r opts, .ok (opts, wfsInit))

/-- Function `waitUntilFreeOnHost(port)` for an object argument (src/index.js
lines 234-246): copy the object with `inUse: false`
(`Object.assign({}, port, { inUse: false })`), keep the caller's
`host`, and delegate to `waitForStatus`. -/
def waitUntilFreeOnHost_obj (σ : Store) (r : Nat) : Store × Except String (Opts × SessionState) :=
  let o := σ.getObj r
  let p := σ.alloc { o with inUse := .boolV false }
  waitForStatus_obj p.1 p.2

/-- Function `waitUntilFree(port)` for an object argument (src/index.js lines
267-280): copy the object with `host: LOCALHOST` and `inUse: false`,
then delegate to `waitForStatus`. -/
def waitUntilFree_obj (σ : Store) (r : Nat) : Store × Except String (Opts × SessionState) :=
  let o := σ.getObj r
  let p := σ.alloc { o with host := LOCALHOST, inUse := .boolV false }
  waitForStatus_obj p.1 p.2

/-- Function `waitUntilUsedOnHost(port)` for an object argument (src/index.js
lines 302-313): `opts` aliases the caller's object and `opts.inUse =
true` writes through it; then delegate to `waitForStatus` on the same
reference. -/
def waitUntilUsedOnHost_obj (σ : Store) (r : Nat) : Store × Except String (Opts × SessionState) :=
  let σ' := σ.setObj r { σ.getObj r with inUse := .boolV true }
  waitForStatus_obj σ' r

/-- Function `waitUntilUsed(port)` for an object argument (src/index.js lines
334-347): copy the object with `host: LOCALHOST` and `inUse: true`,
then delegate to `waitUntilUsedOnHost`. -/
def waitUntilUsed_obj (σ : Store) (r : Nat) : Store × Except String (Opts × SessionState) :=
  let o := σ.getObj r
  let p := σ.alloc { o with host := LOCALHOST, inUse := .boolV true }
  waitUntilUsedOnHost_obj p.1 p.2

/-- The export list of src/index.js (lines 349-354). -/
def moduleExports : List String :=
  ["check", "waitUntilFreeOnHost", "waitUntilFree",
   "waitUntilUsedOnHost", "waitUntilUsed", "waitForStatus"]

/-! ## The session invariant -/

/-- The session invariant: at most one retry timer or in-flight probe
exists at any time; a settled session holds no timers; a session that
settled without timing out has no probe in flight; and a timed-out
session is exactly the rejected-with-`timeout` state. -/
def WInv (s : SessionState) : Prop :=
  s.retryTimers.length + s.probes ≤ 1
  ∧ (s.settled.isSome = true → s.deadlineArmed = false ∧ s.retryTimers = [])
  ∧ (s.settled.isSome = true → s.timedOut = false → s.probes = 0)
  ∧ (s.timedOut = true → s.retryTimers = [] ∧ s.deadlineArmed = false
      ∧ s.settled = some (.error "timeout"))

theorem winv_init : WInv wfsInit := by
  refine ⟨?_, ?_, ?_, ?_⟩ <;> simp [wfsInit]

theorem winv_step {cfg : WaitCfg} {s : SessionState} {e : WEv}
    (hinv : WInv s) (he : WEnabled s e) : WInv (wfsStep cfg s e) := by
  obtain ⟨h1, h2, h3, h4⟩ := hinv
  cases e with
  | deadline =>
    simp only [WEnabled] at he
    have hs : s.settled = none := by
      cases hset : s.settled with
      | none => rfl
      | some v =>
        have hd := (h2 (by simp [hset])).1
        rw [he] at hd
        cases hd
    refine ⟨?_, ?_, ?_, ?_⟩ <;>
      simp [wfsStep, wfsCleanUp, settleOnce, hs]
    omega
  | retryFire =>
    simp only [WEnabled] at he
    have hlen : s.retryTimers.length ≠ 0 := by simpa using he
    have hset : s.settled = none := by
      cases hst : s.settled with
      | none => rfl
      | some v => exact absurd ((h2 (by simp [hst])).2) he
    have hto : s.timedOut = false := by
      cases hto : s.timedOut with
      | false => rfl
      | true => exact absurd (h4 hto).1 he
    refine ⟨?_, ?_, ?_, ?_⟩ <;> simp [wfsStep, hset, hto]
    omega
  | probeOk used =>
    simp only [WEnabled] at he
    have hretry : s.retryTimers = [] := by
      cases hr : s.retryTimers with
      | nil => rfl
      | cons a l => rw [hr] at h1; simp at h1; omega
    have hp1 : s.probes = 1 := by rw [hretry] at h1; simp at h1; omega
    by_cases hto : s.timedOut = true
    · obtain ⟨hrt, hda, hst⟩ := h4 hto
      refine ⟨?_, ?_, ?_, ?_⟩ <;> simp [wfsStep, hto, hst, hrt, hda, hp1]
    · have hto' : s.timedOut = false := by simpa using hto
      have hset : s.settled = none := by
        cases hst : s.settled with
        | none => rfl
        | some v => have := h3 (by simp [hst]) hto'; omega
      by_cases hu : used = cfg.desired
      · refine ⟨?_, ?_, ?_, ?_⟩ <;>
          simp [wfsStep, wfsCleanUp, hto', hu, hset, settleOnce, hp1]
      · refine ⟨?_, ?_, ?_, ?_⟩ <;>
          simp [wfsStep, hto', hu, hset, hretry, hp1]
  | probeErr err =>
    simp only [WEnabled] at he
    have hretry : s.retryTimers = [] := by
      cases hr : s.retryTimers with
      | nil => rfl
      | cons a l => rw [hr] at h1; simp at h1; omega
    have hp1 : s.probes = 1 := by rw [hretry] at h1; simp at h1; omega
    by_cases hto : s.timedOut = true
    · obtain ⟨hrt, hda, hst⟩ := h4 hto
      refine ⟨?_, ?_, ?_, ?_⟩ <;> simp [wfsStep, hto, hst, hrt, hda, hp1]
    · have hto' : s.timedOut = false := by simpa using hto
      have hset : s.settled = none := by
        cases hst : s.settled with
        | none => rfl
        | some v => have := h3 (by simp [hst]) hto'; omega
      refine ⟨?_, ?_, ?_, ?_⟩ <;>
        simp [wfsStep, wfsCleanUp, hto', hset, settleOnce, hp1]

/-- Every reachable session state satisfies the invariant. -/
theorem wreachable_inv {cfg : WaitCfg} {s : SessionState}
    (h : WReachable cfg s) : WInv s := by
  induction h with
  | init => exact winv_init
  | next hr he ih => exact winv_step ih he

/-! ## Helper lemmas -/

/-- Once both listeners are detached, further socket events change
nothing. -/
theorem checkStep_inert (l : List SockEv) (s : CheckState)
    (hc : s.connectLs = false) (he : s.errorLs = false) :
    l.foldl checkStep s = s := by
  induction l with
  | nil => rfl
  | cons e rest ih =>
    have hstep : checkStep s e = s := by
      cases e <;> simp [checkStep, hc, he]
    rw [List.foldl_cons, hstep, ih]

theorem getD_set_self {α : Type} (l : List α) (i : Nat) (a d : α)
    (h : i < l.length) : (l.set i a).getD i d = a := by
  induction l generalizing i with
  | nil => simp at h
  | cons x xs ih =>
    cases i with
    | zero => rfl
    | succ n =>
      have : n < xs.length := by simpa using h
      simpa [List.getD] using ih n this

theorem getD_append_self {α : Type} (l : List α) (a d : α) :
    (l ++ [a]).getD l.length d = a := by
  induction l with
  | nil => rfl
  | cons x xs ih => simp [List.getD] at ih ⊢

/-- Writing through a reference and reading it back. -/
theorem Store.getObj_setObj_self (σ : Store) (r : Nat) (o : Opts)
    (h : r < σ.objs.length) : (σ.setObj r o).getObj r = o :=
  getD_set_self σ.objs r o default h

/-- Reading a freshly allocated object back. -/
theorem Store.getObj_alloc (σ : Store) (o : Opts) :
    (σ.alloc o).1.getObj (σ.alloc o).2 = o :=
  getD_append_self σ.objs o default

/-- The result of the object-form `waitForStatus` is the result of the
value-form `waitForStatus` on the dereferenced object. -/
theorem waitForStatus_obj_snd (σ : Store) (r : Nat) :
    (waitForStatus_obj σ r).2 = waitForStatus_start (σ.getObj r) := by
  by_cases hb : isBool (σ.getObj r).inUse
  · by_cases h1 : isPositiveInt (σ.getObj r).retryTimeMs <;>
      by_cases h2 : isPositiveInt (σ.getObj r).timeOutMs <;>
        simp [waitForStatus_obj, waitForStatus_start, wfsNormalize, hb, h1, h2]
  · simp [waitForStatus_obj, waitForStatus_start, wfsNormalize, hb]

/-! ## Claim theorems -/

/-- C1: for every options value with a boolean `inUse` and a valid
port, `waitForStatus` starts its session with the deadline timer armed
and the first probe already in flight — no retry timer precedes
attempt #1; at every reachable, not-timed-out point with a probe in
flight, a probe result equal to the desired `inUse` clears both timers
and resolves the promise with no value, a mismatched result schedules
exactly one retry timer with delay `retryTimeMs`, and at most one
retry timer is ever outstanding. -/
theorem C1_first_probe_and_retry_discipline (opts : Opts)
    (hb : isBool opts.inUse = true) (_hp : isPort opts.port = true) :
    (∃ o : Opts, waitForStatus_start opts = .ok (o, wfsInit))
    ∧ wfsInit.deadlineArmed = true ∧ wfsInit.probes = 1 ∧ wfsInit.retryTimers = []
    ∧ ∀ (o : Opts) (s : SessionState) (used : Bool),
        waitForStatus_start opts = .ok (o, wfsInit) →
        WReachable (optsCfg o) s → 0 < s.probes → s.timedOut = false →
          (used = (optsCfg o).desired →
            (wfsStep (optsCfg o) s (.probeOk used)).settled = some (.ok ())
            ∧ (wfsStep (optsCfg o) s (.probeOk used)).deadlineArmed = false
            ∧ (wfsStep (optsCfg o) s (.probeOk used)).retryTimers = [])
          ∧ (used ≠ (optsCfg o).desired →
            (wfsStep (optsCfg o) s (.probeOk used)).retryTimers = [(optsCfg o).retryMs]
            ∧ (wfsStep (optsCfg o) s (.probeOk used)).settled = none)
          ∧ s.retryTimers.length ≤ 1 := by
  refine ⟨?_, rfl, rfl, rfl, ?_⟩
  · have hn : ∃ o, wfsNormalize opts = .ok o := by
      simp only [wfsNormalize, hb]
      exact ⟨_, rfl⟩
    obtain ⟨o, ho⟩ := hn
    exact ⟨o, by simp only [waitForStatus_start, ho]⟩
  · intro o s used _ hreach hprobe hto
    obtain ⟨h1, h2, h3, h4⟩ := wreachable_inv hreach
    have hretry : s.retryTimers = [] := by
      cases hr : s.retryTimers with
      | nil => rfl
      | cons a l => rw [hr] at h1; simp at h1; omega
    have hset : s.settled = none := by
      cases hst : s.settled with
      | none => rfl
      | some v => have := h3 (by simp [hst]) hto; omega
    refine ⟨?_, ?_, ?_⟩
    · intro hu
      refine ⟨?_, ?_, ?_⟩ <;>
        simp [wfsStep, wfsCleanUp, hto, hu, hset, settleOnce]
    · intro hu
      constructor <;> simp [wfsStep, hto, hu, hset, hretry]
    · omega

/-- Witness for C1: port 80, desired status `true`. -/
theorem C1_witness :
    (isBool (Opts.mk (.num 80) .undef (.boolV true) .undef .undef).inUse = true
      ∧ isPort (Opts.mk (.num 80) .undef (.boolV true) .undef .undef).port = true)
    ∧ ((∃ o : Opts,
          waitForStatus_start ⟨.num 80, .undef, .boolV true, .undef, .undef⟩ = .ok (o, wfsInit))
      ∧ wfsInit.deadlineArmed = true ∧ wfsInit.probes = 1 ∧ wfsInit.retryTimers = []
      ∧ ∀ (o : Opts) (s : SessionState) (used : Bool),
          waitForStatus_start ⟨.num 80, .undef, .boolV true, .undef, .undef⟩ = .ok (o, wfsInit) →
          WReachable (optsCfg o) s → 0 < s.probes → s.timedOut = false →
            (used = (optsCfg o).desired →
              (wfsStep (optsCfg o) s (.probeOk used)).settled = some (.ok ())
              ∧ (wfsStep (optsCfg o) s (.probeOk used)).deadlineArmed = false
              ∧ (wfsStep (optsCfg o) s (.probeOk used)).retryTimers = [])
            ∧ (used ≠ (optsCfg o).desired →
              (wfsStep (optsCfg o) s (.probeOk used)).retryTimers = [(optsCfg o).retryMs]
              ∧ (wfsStep (optsCfg o) s (.probeOk used)).settled = none)
            ∧ s.retryTimers.length ≤ 1) :=
  ⟨⟨by decide, by decide⟩,
    C1_first_probe_and_retry_discipline ⟨.num 80, .undef, .boolV true, .undef, .undef⟩
      (by decide) (by decide)⟩

/-- C2: in every reachable session state, if the deadline timer can
still fire then the promise is unsettled, and firing it marks the
session timed-out, clears both timers, and rejects with exactly
`timeout`; once timed out, a probe that settles with a result or an
error changes no settlement, no timer, and schedules nothing. -/
theorem C2_timeout_wins_and_late_probes_discarded
    (cfg : WaitCfg) (s : SessionState) (h : WReachable cfg s) :
    (s.deadlineArmed = true →
      s.settled = none
      ∧ (wfsStep cfg s .deadline).timedOut = true
      ∧ (wfsStep cfg s .deadline).deadlineArmed = false
      ∧ (wfsStep cfg s .deadline).retryTimers = []
      ∧ (wfsStep cfg s .deadline).settled = some (.error "timeout"))
    ∧ (s.timedOut = true →
      ∀ (used : Bool) (e : String),
        (wfsStep cfg s (.probeOk used)).settled = s.settled
        ∧ (wfsStep cfg s (.probeOk used)).retryTimers = s.retryTimers
        ∧ (wfsStep cfg s (.probeOk used)).deadlineArmed = s.deadlineArmed
        ∧ (wfsStep cfg s (.probeErr e)).settled = s.settled
        ∧ (wfsStep cfg s (.probeErr e)).retryTimers = s.retryTimers
        ∧ (wfsStep cfg s (.probeErr e)).deadlineArmed = s.deadlineArmed) := by
  obtain ⟨h1, h2, h3, h4⟩ := wreachable_inv h
  constructor
  · intro hd
    have hset : s.settled = none := by
      cases hst : s.settled with
      | none => rfl
      | some v =>
        have hfalse := (h2 (by simp [hst])).1
        rw [hd] at hfalse
        cases hfalse
    refine ⟨hset, ?_, ?_, ?_, ?_⟩ <;>
      simp [wfsStep, wfsCleanUp, settleOnce, hset]
  · intro hto used e
    refine ⟨?_, ?_, ?_, ?_, ?_, ?_⟩ <;> simp [wfsStep, hto]

/-- Witness for C2 at the initial state of a session with desired
status `true` and retry delay 250. -/
theorem C2_witness :
    (wfsInit.deadlineArmed = true →
      wfsInit.settled = none
      ∧ (wfsStep ⟨true, 250⟩ wfsInit .deadline).timedOut = true
      ∧ (wfsStep ⟨true, 250⟩ wfsInit .deadline).deadlineArmed = false
      ∧ (wfsStep ⟨true, 250⟩ wfsInit .deadline).retryTimers = []
      ∧ (wfsStep ⟨true, 250⟩ wfsInit .deadline).settled = some (.error "timeout"))
    ∧ (wfsInit.timedOut = true →
      ∀ (used : Bool) (e : String),
        (wfsStep ⟨true, 250⟩ wfsInit (.probeOk used)).settled = wfsInit.settled
        ∧ (wfsStep ⟨true, 250⟩ wfsInit (.probeOk used)).retryTimers = wfsInit.retryTimers
        ∧ (wfsStep ⟨true, 250⟩ wfsInit (.probeOk used)).deadlineArmed = wfsInit.deadlineArmed
        ∧ (wfsStep ⟨true, 250⟩ wfsInit (.probeErr e)).settled = wfsInit.settled
        ∧ (wfsStep ⟨true, 250⟩ wfsInit (.probeErr e)).retryTimers = wfsInit.retryTimers
        ∧ (wfsStep ⟨true, 250⟩ wfsInit (.probeErr e)).deadlineArmed = wfsInit.deadlineArmed) :=
  C2_timeout_wins_and_late_probes_discarded ⟨true, 250⟩ wfsInit WReachable.init

/-- C4: in every reachable, not-timed-out session state with a probe
in flight, a probe failure settles the outer promise with that same
error, clears both timers, and leaves nothing that could run another
probe — no event of the session is enabled afterwards. -/
theorem C4_probe_error_terminates_session
    (cfg : WaitCfg) (s : SessionState) (e : String)
    (h : WReachable cfg s) (hp : 0 < s.probes) (ht : s.timedOut = false) :
    (wfsStep cfg s (.probeErr e)).settled = some (.error e)
    ∧ (wfsStep cfg s (.probeErr e)).deadlineArmed = false
    ∧ (wfsStep cfg s (.probeErr e)).retryTimers = []
    ∧ (wfsStep cfg s (.probeErr e)).probes = 0
    ∧ ∀ ev : WEv, ¬ WEnabled (wfsStep cfg s (.probeErr e)) ev := by
  obtain ⟨h1, h2, h3, h4⟩ := wreachable_inv h
  have hset : s.settled = none := by
    cases hst : s.settled with
    | none => rfl
    | some v => have := h3 (by simp [hst]) ht; omega
  have hp1 : s.probes = 1 := by omega
  refine ⟨?_, ?_, ?_, ?_, ?_⟩
  · simp [wfsStep, wfsCleanUp, ht, hset, settleOnce]
  · simp [wfsStep, wfsCleanUp, ht, hset, settleOnce]
  · simp [wfsStep, wfsCleanUp, ht, hset, settleOnce]
  · simp [wfsStep, wfsCleanUp, ht, hset, settleOnce, hp1]
  · intro ev
    cases ev <;>
      simp [WEnabled, wfsStep, wfsCleanUp, ht, hset, settleOnce, hp1]

/-- Witness for C4: a probe failing with `EHOSTUNREACH` right after
session start. -/
theorem C4_witness :
    (0 < wfsInit.probes ∧ wfsInit.timedOut = false)
    ∧ ((wfsStep ⟨true, 250⟩ wfsInit (.probeErr "EHOSTUNREACH")).settled
          = some (.error "EHOSTUNREACH")
      ∧ (wfsStep ⟨true, 250⟩ wfsInit (.probeErr "EHOSTUNREACH")).deadlineArmed = false
      ∧ (wfsStep ⟨true, 250⟩ wfsInit (.probeErr "EHOSTUNREACH")).retryTimers = []
      ∧ (wfsStep ⟨true, 250⟩ wfsInit (.probeErr "EHOSTUNREACH")).probes = 0
      ∧ ∀ ev : WEv,
          ¬ WEnabled (wfsStep ⟨true, 250⟩ wfsInit (.probeErr "EHOSTUNREACH")) ev) :=
  ⟨⟨by decide, by decide⟩,
    C4_probe_error_terminates_session ⟨true, 250⟩ wfsInit "EHOSTUNREACH"
      WReachable.init (by decide) (by decide)⟩

/-- C3: a `check` call with a valid port is decided by the first
socket event, and by it alone: `connect` resolves `true`,
`ECONNREFUSED` resolves `false` (a normal outcome, not an error), any
other error code rejects with that error; before any event the promise
is pending, and any events after the first are ignored because the
listeners were removed during teardown. -/
theorem C3_check_first_event_decides (port : JSVal) (rest : List SockEv) (c : String)
    (hp : isPort port = true) (hc : c ≠ "ECONNREFUSED") :
    (check port []).result = none
    ∧ (check port (.connect :: rest)).result = some (.ok true)
    ∧ (check port (.sockError "ECONNREFUSED" :: rest)).result = some (.ok false)
    ∧ (check port (.sockError c :: rest)).result = some (.error c)
    ∧ ∀ e : SockEv, check port (e :: rest) = check port [e] := by
  have hck : ∀ evs : List SockEv, check port evs = evs.foldl checkStep checkInitState := by
    intro evs
    simp [check, hp]
  have hconn : checkStep checkInitState .connect
      = ⟨true, false, false, true, true, true, some (.ok true)⟩ := by rfl
  have hrefused : checkStep checkInitState (.sockError "ECONNREFUSED")
      = ⟨true, false, false, true, true, true, some (.ok false)⟩ := by rfl
  have herr : checkStep checkInitState (.sockError c)
      = ⟨true, false, false, true, true, true, some (.error c)⟩ := by
    simp [checkStep, checkInitState, onErrorTrace, hc, cleanUpTrace, applyCAct, settleOnce]
  refine ⟨?_, ?_, ?_, ?_, ?_⟩
  · rw [hck]; rfl
  · rw [hck, List.foldl_cons, hconn, checkStep_inert rest _ rfl rfl]
  · rw [hck, List.foldl_cons, hrefused, checkStep_inert rest _ rfl rfl]
  · rw [hck, List.foldl_cons, herr, checkStep_inert rest _ rfl rfl]
  · intro e
    have hls : (checkStep checkInitState e).connectLs = false
        ∧ (checkStep checkInitState e).errorLs = false := by
      cases e with
      | connect => rw [hconn]; exact ⟨rfl, rfl⟩
      | sockError code =>
        by_cases hcode : code = "ECONNREFUSED"
        · rw [hcode, hrefused]; exact ⟨rfl, rfl⟩
        · simp [checkStep, checkInitState, onErrorTrace, hcode, cleanUpTrace,
            applyCAct, settleOnce]
    rw [hck, hck, List.foldl_cons, List.foldl_cons,
      checkStep_inert rest _ hls.1 hls.2]
    rfl

/-- Witness for C3: port 80, a trailing `connect` event after the
first event, and the non-refused error code `EHOSTUNREACH`. -/
theorem C3_witness :
    (isPort (JSVal.num 80) = true ∧ "EHOSTUNREACH" ≠ "ECONNREFUSED")
    ∧ ((check (.num 80) []).result = none
      ∧ (check (.num 80) (.connect :: [.connect])).result = some (.ok true)
      ∧ (check (.num 80) (.sockError "ECONNREFUSED" :: [.connect])).result = some (.ok false)
      ∧ (check (.num 80) (.sockError "EHOSTUNREACH" :: [.connect])).result
          = some (.error "EHOSTUNREACH")
      ∧ ∀ e : SockEv, check (.num 80) (e :: [.connect]) = check (.num 80) [e]) :=
  ⟨⟨by decide, by decide⟩,
    C3_check_first_event_decides (.num 80) [.connect] "EHOSTUNREACH"
      (by decide) (by decide)⟩

/-- Counterexample to C5 as stated: with the invalid port `'hello'`
and a boolean `inUse`, `waitForStatus` does not fail before a timer is
started: its own validation passes, the session starts with the
deadline timer armed, and the `invalid port` failure only arrives when
the immediately-issued first probe settles. -/
theorem C5_counterexample :
    waitForStatus_start ⟨.str "hello", .undef, .boolV true, .undef, .undef⟩
      = .ok (⟨.str "hello", .undef, .boolV true, .num 250, .num 2000⟩, wfsInit)
    ∧ wfsInit.deadlineArmed = true
    ∧ (check (.str "hello") []).socketCreated = false
    ∧ (check (.str "hello") []).result = some (.error "invalid port: 'hello'") := by
  refine ⟨by decide, rfl, rfl, by decide⟩

/-- C5 amended: for every port that is missing, non-numeric or outside
[0,65535], `check` rejects with the `invalid port: <value>` message
(carrying the inspected offending value) before any socket is created
and without acquiring any resource; `waitForStatus` (with a boolean
`inUse`) also rejects with exactly that error and creates no socket,
but only after arming its deadline timer — the probe error then
settles the session and clears all timers. -/
theorem C5_invalid_port_rejection (opts : Opts) (events : List SockEv)
    (hp : isPort opts.port = false) (hb : isBool opts.inUse = true) :
    (check opts.port events).socketCreated = false
    ∧ (check opts.port events).result
        = some (.error ("invalid port: " ++ inspect opts.port))
    ∧ (∃ o : Opts, waitForStatus_start opts = .ok (o, wfsInit))
    ∧ wfsInit.deadlineArmed = true
    ∧ ∀ o : Opts, waitForStatus_start opts = .ok (o, wfsInit) →
        (wfsStep (optsCfg o) wfsInit
            (.probeErr ("invalid port: " ++ inspect opts.port))).settled
          = some (.error ("invalid port: " ++ inspect opts.port))
        ∧ (wfsStep (optsCfg o) wfsInit
            (.probeErr ("invalid port: " ++ inspect opts.port))).deadlineArmed = false
        ∧ (wfsStep (optsCfg o) wfsInit
            (.probeErr ("invalid port: " ++ inspect opts.port))).retryTimers = [] := by
  have hchk : check opts.port events
      = { socketCreated := false, connectLs := false, errorLs := false,
          ended := false, destroyed := false, unrefd := false,
          result := some (.error ("invalid port: " ++ inspect opts.port)) } := by
    simp [check, hp]
  refine ⟨by rw [hchk], by rw [hchk], ?_, rfl, ?_⟩
  · have hn : ∃ o, wfsNormalize opts = .ok o := by
      simp only [wfsNormalize, hb]
      exact ⟨_, rfl⟩
    obtain ⟨o, ho⟩ := hn
    exact ⟨o, by simp only [waitForStatus_start, ho]⟩
  · intro o _
    refine ⟨?_, ?_, ?_⟩ <;>
      simp [wfsStep, wfsCleanUp, wfsInit, settleOnce]

/-- Witness for C5's amended theorem: the port `'hello'`. -/
theorem C5_witness :
    (isPort (JSVal.str "hello") = false ∧ isBool (JSVal.boolV true) = true)
    ∧ ((check (.str "hello") []).socketCreated = false
      ∧ (check (.str "hello") []).result
          = some (.error ("invalid port: " ++ inspect (.str "hello")))
      ∧ (∃ o : Opts,
          waitForStatus_start ⟨.str "hello", .undef, .boolV true, .undef, .undef⟩
            = .ok (o, wfsInit))
      ∧ wfsInit.deadlineArmed = true
      ∧ ∀ o : Opts,
          waitForStatus_start ⟨.str "hello", .undef, .boolV true, .undef, .undef⟩
            = .ok (o, wfsInit) →
          (wfsStep (optsCfg o) wfsInit
              (.probeErr ("invalid port: " ++ inspect (.str "hello")))).settled
            = some (.error ("invalid port: " ++ inspect (.str "hello")))
          ∧ (wfsStep (optsCfg o) wfsInit
              (.probeErr ("invalid port: " ++ inspect (.str "hello")))).deadlineArmed = false
          ∧ (wfsStep (optsCfg o) wfsInit
              (.probeErr ("invalid port: " ++ inspect (.str "hello")))).retryTimers = []) :=
  ⟨⟨by decide, by decide⟩,
    C5_invalid_port_rejection ⟨.str "hello", .undef, .boolV true, .undef, .undef⟩ []
      (by decide) (by decide)⟩

/-- Counterexample to C6 as stated: `onConnectCb` resolves the promise
as its very first statement; after that statement the promise is
already settled while no teardown step has happened — both listeners
are still attached and the socket is not ended, destroyed or
unreferenced — so on the successful-connection path teardown does not
occur before the promise is resolved. -/
theorem C6_counterexample :
    onConnectTrace.head? = some (.resolveA true)
    ∧ (applyCAct checkInitState (.resolveA true)).result = some (.ok true)
    ∧ (applyCAct checkInitState (.resolveA true)).connectLs = true
    ∧ (applyCAct checkInitState (.resolveA true)).errorLs = true
    ∧ (applyCAct checkInitState (.resolveA true)).ended = false
    ∧ (applyCAct checkInitState (.resolveA true)).destroyed = false
    ∧ (applyCAct checkInitState (.resolveA true)).unrefd = false := by decide

/-- C6 amended: the full `cleanUp` teardown sequence is a suffix of
every callback path of `check` — successful connect,
connection-refused, and any other error — so after any first socket
event the socket is ended, destroyed and unreferenced, both listeners
are removed, and the promise is settled; on the successful-connection
path the teardown runs immediately after (not before) the resolve. -/
theorem C6_teardown_on_every_path (port : JSVal) (c : String) (e : SockEv)
    (rest : List SockEv) (hp : isPort port = true) :
    cleanUpTrace <:+ onConnectTrace
    ∧ cleanUpTrace <:+ onErrorTrace c
    ∧ onConnectTrace.head? = some (.resolveA true)
    ∧ (check port (e :: rest)).connectLs = false
    ∧ (check port (e :: rest)).errorLs = false
    ∧ (check port (e :: rest)).ended = true
    ∧ (check port (e :: rest)).destroyed = true
    ∧ (check port (e :: rest)).unrefd = true
    ∧ ((check port (e :: rest)).result).isSome = true := by
  have hck : ∀ evs : List SockEv, check port evs = evs.foldl checkStep checkInitState := by
    intro evs
    simp [check, hp]
  have hone : ∀ ev : SockEv, checkStep checkInitState ev
      = ⟨true, false, false, true, true, true,
          some (match ev with
                | .connect => Except.ok true
                | .sockError code =>
                    if code = "ECONNREFUSED" then Except.ok false else Except.error code)⟩ := by
    intro ev
    cases ev with
    | connect => rfl
    | sockError code =>
      by_cases hcode : code = "ECONNREFUSED" <;>
        simp [checkStep, checkInitState, onErrorTrace, hcode, cleanUpTrace,
          applyCAct, settleOnce]
  have hfin : check port (e :: rest) = checkStep checkInitState e := by
    rw [hck, List.foldl_cons]
    exact checkStep_inert rest _ (by rw [hone e]) (by rw [hone e])
  rw [hfin, hone e]
  exact ⟨List.suffix_append _ _, List.suffix_append _ _, rfl,
    rfl, rfl, rfl, rfl, rfl, rfl⟩

/-- Witness for C6's amended theorem: port 80, error code
`EHOSTUNREACH`, first event `connect`, one trailing event. -/
theorem C6_witness :
    isPort (JSVal.num 80) = true
    ∧ (cleanUpTrace <:+ onConnectTrace
      ∧ cleanUpTrace <:+ onErrorTrace "EHOSTUNREACH"
      ∧ onConnectTrace.head? = some (.resolveA true)
      ∧ (check (.num 80) (.connect :: [.connect])).connectLs = false
      ∧ (check (.num 80) (.connect :: [.connect])).errorLs = false
      ∧ (check (.num 80) (.connect :: [.connect])).ended = true
      ∧ (check (.num 80) (.connect :: [.connect])).destroyed = true
      ∧ (check (.num 80) (.connect :: [.connect])).unrefd = true
      ∧ ((check (.num 80) (.connect :: [.connect])).result).isSome = true) :=
  ⟨by decide,
    C6_teardown_on_every_path (.num 80) "EHOSTUNREACH" .connect [.connect] (by decide)⟩

/-- C7: `waitForStatus` rejects with `inUse must be a boolean` — and
starts no session, hence no timer — exactly when `inUse` is not a
boolean; when it is a boolean, the session starts with `retryTimeMs`
replaced by 250 exactly when not a positive integer and `timeOutMs`
replaced by 2000 exactly when not a positive integer, the two defaults
applied independently and caller-supplied positive integers
preserved. -/
theorem C7_inuse_validation_and_independent_defaults (opts : Opts) :
    (isBool opts.inUse = false →
      waitForStatus_start opts = .error "inUse must be a boolean")
    ∧ (isBool opts.inUse = true →
      waitForStatus_start opts
        = .ok ({ opts with
            retryTimeMs := if isPositiveInt opts.retryTimeMs then opts.retryTimeMs
                           else .num 250,
            timeOutMs := if isPositiveInt opts.timeOutMs then opts.timeOutMs
                         else .num 2000 }, wfsInit)) := by
  constructor
  · intro hb
    simp [waitForStatus_start, wfsNormalize, hb]
  · intro hb
    by_cases h1 : isPositiveInt opts.retryTimeMs <;>
      by_cases h2 : isPositiveInt opts.timeOutMs <;>
        simp [waitForStatus_start, wfsNormalize, hb, h1, h2, RETRY_TIME, TIMEOUT]

/-- Witness for C7: a non-boolean `inUse` is rejected; positive
integers are preserved; a missing retry interval and a non-positive
timeout are independently defaulted. -/
theorem C7_witness :
    waitForStatus_start ⟨.num 80, .undef, .num 3, .undef, .undef⟩
      = .error "inUse must be a boolean"
    ∧ waitForStatus_start ⟨.num 80, .undef, .boolV true, .num 100, .num 42⟩
      = .ok (⟨.num 80, .undef, .boolV true, .num 100, .num 42⟩, wfsInit)
    ∧ waitForStatus_start ⟨.num 80, .undef, .boolV false, .undef, .num 0⟩
      = .ok (⟨.num 80, .undef, .boolV false, .num 250, .num 2000⟩, wfsInit) :=
  ⟨(C7_inuse_validation_and_independent_defaults
      ⟨.num 80, .undef, .num 3, .undef, .undef⟩).1 (by decide),
   (C7_inuse_validation_and_independent_defaults
      ⟨.num 80, .undef, .boolV true, .num 100, .num 42⟩).2 (by decide),
   (C7_inuse_validation_and_independent_defaults
      ⟨.num 80, .undef, .boolV false, .undef, .num 0⟩).2 (by decide)⟩

/-! ## Wrapper result lemmas -/

/-- Lemma: `waitForStatus_start` succeeding preserves the port, host and
`inUse` fields of its argument. -/
theorem waitForStatus_start_ok_fields (X o : Opts) (s : SessionState)
    (h : waitForStatus_start X = .ok (o, s)) :
    o.port = X.port ∧ o.host = X.host ∧ o.inUse = X.inUse ∧ s = wfsInit := by
  by_cases hb : isBool X.inUse
  · by_cases h1 : isPositiveInt X.retryTimeMs <;>
      by_cases h2 : isPositiveInt X.timeOutMs <;>
        · simp [waitForStatus_start, wfsNormalize, hb, h1, h2] at h
          obtain ⟨ho, hs⟩ := h
          rw [← ho, ← hs]
          exact ⟨rfl, rfl, rfl, rfl⟩
  · simp [waitForStatus_start, wfsNormalize, hb] at h

/-- The object-form `waitUntilFreeOnHost` computes `waitForStatus` on
a copy of the object with `inUse := false` and the host untouched. -/
theorem waitUntilFreeOnHost_obj_snd (σ : Store) (r : Nat) :
    (waitUntilFreeOnHost_obj σ r).2
      = waitForStatus_start { σ.getObj r with inUse := .boolV false } := by
  simp only [waitUntilFreeOnHost_obj]
  rw [waitForStatus_obj_snd, Store.getObj_alloc]

/-- The object-form `waitUntilFree` computes `waitForStatus` on a copy
of the object with `host := LOCALHOST` and `inUse := false`. -/
theorem waitUntilFree_obj_snd (σ : Store) (r : Nat) :
    (waitUntilFree_obj σ r).2
      = waitForStatus_start { σ.getObj r with host := LOCALHOST, inUse := .boolV false } := by
  simp only [waitUntilFree_obj]
  rw [waitForStatus_obj_snd, Store.getObj_alloc]

/-- The object-form `waitUntilUsedOnHost` computes `waitForStatus` on
the caller's object after writing `inUse := true` through it. -/
theorem waitUntilUsedOnHost_obj_snd (σ : Store) (r : Nat) (hr : r < σ.objs.length) :
    (waitUntilUsedOnHost_obj σ r).2
      = waitForStatus_start { σ.getObj r with inUse := .boolV true } := by
  simp only [waitUntilUsedOnHost_obj]
  rw [waitForStatus_obj_snd, Store.getObj_setObj_self _ _ _ hr]

/-- The object-form `waitUntilUsed` computes `waitForStatus` on a copy
of the object with `host := LOCALHOST` and `inUse := true`. -/
theorem waitUntilUsed_obj_snd (σ : Store) (r : Nat) :
    (waitUntilUsed_obj σ r).2
      = waitForStatus_start { σ.getObj r with host := LOCALHOST, inUse := .boolV true } := by
  simp only [waitUntilUsed_obj]
  have hfresh : (σ.alloc { σ.getObj r with host := LOCALHOST, inUse := .boolV true }).2
      < (σ.alloc { σ.getObj r with host := LOCALHOST, inUse := .boolV true }).1.objs.length := by
    simp [Store.alloc]
  rw [waitUntilUsedOnHost_obj_snd _ _ hfresh, Store.getObj_alloc]

/-- Counterexample to C8 as stated: for an options object carrying
`host: 'example.com'`, `waitUntilFree` does not behave like
`waitForStatus` with `inUse` set to `false` on the same options — the
wrapper forces `host` to `127.0.0.1`, so the session's normalized
options differ. -/
theorem C8_counterexample :
    (waitUntilFree_obj ⟨[⟨.num 80, .str "example.com", .undef, .undef, .undef⟩]⟩ 0).2
      = .ok (⟨.num 80, .str "127.0.0.1", .boolV false, .num 250, .num 2000⟩, wfsInit)
    ∧ waitForStatus_start ⟨.num 80, .str "example.com", .boolV false, .undef, .undef⟩
      = .ok (⟨.num 80, .str "example.com", .boolV false, .num 250, .num 2000⟩, wfsInit)
    ∧ (waitUntilFree_obj ⟨[⟨.num 80, .str "example.com", .undef, .undef, .undef⟩]⟩ 0).2
      ≠ waitForStatus_start ⟨.num 80, .str "example.com", .boolV false, .undef, .undef⟩ := by
  refine ⟨by decide, by decide, by decide⟩

/-- C8 amended: `waitUntilFree(options)` behaves identically to
`waitForStatus` on a copy of the options in which the desired in-use
status is set to `false` AND `host` is forced to the loopback address
(regardless of any caller-supplied host), and `waitUntilUsed(options)`
identically with the status `true`; all other fields pass through
unchanged and no new states are introduced. -/
theorem C8_wrappers_fix_status_and_localhost (σ : Store) (r : Nat) :
    (waitUntilFree_obj σ r).2
      = waitForStatus_start { σ.getObj r with host := LOCALHOST, inUse := .boolV false }
    ∧ (waitUntilUsed_obj σ r).2
      = waitForStatus_start { σ.getObj r with host := LOCALHOST, inUse := .boolV true } :=
  ⟨waitUntilFree_obj_snd σ r, waitUntilUsed_obj_snd σ r⟩

/-- The store-visible effect of the object-form `waitForStatus`: the
caller's object itself holds the defaulted timing fields
afterwards. -/
theorem waitForStatus_obj_store (σ : Store) (r : Nat) (hr : r < σ.objs.length)
    (hb : isBool (σ.getObj r).inUse = true) :
    (waitForStatus_obj σ r).1.getObj r
      = { σ.getObj r with
          retryTimeMs := if isPositiveInt (σ.getObj r).retryTimeMs
                         then (σ.getObj r).retryTimeMs else .num 250,
          timeOutMs := if isPositiveInt (σ.getObj r).timeOutMs
                       then (σ.getObj r).timeOutMs else .num 2000 } := by
  have hget : ∀ o : Opts, (σ.setObj r o).getObj r = o :=
    fun o => Store.getObj_setObj_self σ r o hr
  by_cases h1 : isPositiveInt (σ.getObj r).retryTimeMs <;>
    by_cases h2 : isPositiveInt (σ.getObj r).timeOutMs <;>
      simp [waitForStatus_obj, hb, h1, h2, RETRY_TIME, TIMEOUT, hget]

/-- C9: given an options object, `waitForStatus` writes the defaulted
`retryTimeMs` and `timeOutMs` through the caller's reference
(overwriting them exactly when they are not positive integers), and
`waitUntilUsedOnHost` writes `inUse = true` through it — so an object
reused across calls carries the values written by the previous
call. -/
theorem C9_caller_object_is_mutated (σ : Store) (r : Nat)
    (hr : r < σ.objs.length) (hb : isBool (σ.getObj r).inUse = true) :
    ((waitForStatus_obj σ r).1.getObj r).retryTimeMs
      = (if isPositiveInt (σ.getObj r).retryTimeMs then (σ.getObj r).retryTimeMs
         else .num 250)
    ∧ ((waitForStatus_obj σ r).1.getObj r).timeOutMs
      = (if isPositiveInt (σ.getObj r).timeOutMs then (σ.getObj r).timeOutMs
         else .num 2000)
    ∧ ((waitUntilUsedOnHost_obj σ r).1.getObj r).inUse = .boolV true := by
  have hws := waitForStatus_obj_store σ r hr hb
  refine ⟨by rw [hws], by rw [hws], ?_⟩
  simp only [waitUntilUsedOnHost_obj]
  have hr' : r < (σ.setObj r { σ.getObj r with inUse := .boolV true }).objs.length := by
    simpa [Store.setObj] using hr
  have hget : (σ.setObj r { σ.getObj r with inUse := .boolV true }).getObj r
      = { σ.getObj r with inUse := .boolV true } :=
    Store.getObj_setObj_self _ _ _ hr
  have hb' : isBool
      ((σ.setObj r { σ.getObj r with inUse := .boolV true }).getObj r).inUse = true := by
    rw [hget]
    rfl
  have hws' := waitForStatus_obj_store _ _ hr' hb'
  rw [hws', hget]

/-- Witness for C9: an object with a string retry interval and a
missing timeout, used at reference 0 of a one-object store. -/
theorem C9_witness :
    (0 < (Store.mk [⟨.num 80, .undef, .boolV true, .str "soon", .undef⟩]).objs.length
      ∧ isBool ((Store.mk [⟨.num 80, .undef, .boolV true, .str "soon", .undef⟩]).getObj 0).inUse
          = true)
    ∧ (((waitForStatus_obj ⟨[⟨.num 80, .undef, .boolV true, .str "soon", .undef⟩]⟩ 0).1.getObj 0).retryTimeMs
        = (if isPositiveInt ((Store.mk [⟨.num 80, .undef, .boolV true, .str "soon", .undef⟩]).getObj 0).retryTimeMs
           then ((Store.mk [⟨.num 80, .undef, .boolV true, .str "soon", .undef⟩]).getObj 0).retryTimeMs
           else .num 250)
      ∧ ((waitForStatus_obj ⟨[⟨.num 80, .undef, .boolV true, .str "soon", .undef⟩]⟩ 0).1.getObj 0).timeOutMs
        = (if isPositiveInt ((Store.mk [⟨.num 80, .undef, .boolV true, .str "soon", .undef⟩]).getObj 0).timeOutMs
           then ((Store.mk [⟨.num 80, .undef, .boolV true, .str "soon", .undef⟩]).getObj 0).timeOutMs
           else .num 2000)
      ∧ ((waitUntilUsedOnHost_obj ⟨[⟨.num 80, .undef, .boolV true, .str "soon", .undef⟩]⟩ 0).1.getObj 0).inUse
        = .boolV true) :=
  ⟨⟨by decide, by decide⟩,
    C9_caller_object_is_mutated ⟨[⟨.num 80, .undef, .boolV true, .str "soon", .undef⟩]⟩ 0
      (by decide) (by decide)⟩

/-- C10: the exported `waitUntilFreeOnHost` equals `waitForStatus`
with the desired in-use status set to `false`, and the exported
`waitUntilUsedOnHost` equals it with the status `true`; both preserve
a caller-supplied host, while `waitUntilFree` and `waitUntilUsed`
always force the loopback address — the OnHost pair are the only wait
wrappers honoring a non-loopback host. -/
theorem C10_onhost_wrappers_preserve_host (σ : Store) (r : Nat)
    (hr : r < σ.objs.length) :
    (waitUntilFreeOnHost_obj σ r).2
      = waitForStatus_start { σ.getObj r with inUse := .boolV false }
    ∧ (waitUntilUsedOnHost_obj σ r).2
      = waitForStatus_start { σ.getObj r with inUse := .boolV true }
    ∧ (∀ (o : Opts) (s : SessionState),
        (waitUntilFreeOnHost_obj σ r).2 = .ok (o, s) → o.host = (σ.getObj r).host)
    ∧ (∀ (o : Opts) (s : SessionState),
        (waitUntilUsedOnHost_obj σ r).2 = .ok (o, s) → o.host = (σ.getObj r).host)
    ∧ (∀ (o : Opts) (s : SessionState),
        (waitUntilFree_obj σ r).2 = .ok (o, s) → o.host = LOCALHOST)
    ∧ (∀ (o : Opts) (s : SessionState),
        (waitUntilUsed_obj σ r).2 = .ok (o, s) → o.host = LOCALHOST)
    ∧ "waitUntilFreeOnHost" ∈ moduleExports
    ∧ "waitUntilUsedOnHost" ∈ moduleExports := by
  refine ⟨waitUntilFreeOnHost_obj_snd σ r, waitUntilUsedOnHost_obj_snd σ r hr,
    ?_, ?_, ?_, ?_, by decide, by decide⟩
  · intro o s hok
    rw [waitUntilFreeOnHost_obj_snd] at hok
    exact (waitForStatus_start_ok_fields _ _ _ hok).2.1
  · intro o s hok
    rw [waitUntilUsedOnHost_obj_snd σ r hr] at hok
    exact (waitForStatus_start_ok_fields _ _ _ hok).2.1
  · intro o s hok
    rw [waitUntilFree_obj_snd] at hok
    exact (waitForStatus_start_ok_fields _ _ _ hok).2.1
  · intro o s hok
    rw [waitUntilUsed_obj_snd] at hok
    exact (waitForStatus_start_ok_fields _ _ _ hok).2.1

/-- Witness for C10 at a one-object store holding a non-loopback
host. -/
theorem C10_witness :
    0 < (Store.mk [⟨.num 80, .str "example.com", .undef, .undef, .undef⟩]).objs.length
    ∧ ((waitUntilFreeOnHost_obj ⟨[⟨.num 80, .str "example.com", .undef, .undef, .undef⟩]⟩ 0).2
        = waitForStatus_start
            { (Store.mk [⟨.num 80, .str "example.com", .undef, .undef, .undef⟩]).getObj 0 with
              inUse := .boolV false }
      ∧ (waitUntilUsedOnHost_obj ⟨[⟨.num 80, .str "example.com", .undef, .undef, .undef⟩]⟩ 0).2
        = waitForStatus_start
            { (Store.mk [⟨.num 80, .str "example.com", .undef, .undef, .undef⟩]).getObj 0 with
              inUse := .boolV true }
      ∧ (∀ (o : Opts) (s : SessionState),
          (waitUntilFreeOnHost_obj ⟨[⟨.num 80, .str "example.com", .undef, .undef, .undef⟩]⟩ 0).2
            = .ok (o, s) →
          o.host = ((Store.mk [⟨.num 80, .str "example.com", .undef, .undef, .undef⟩]).getObj 0).host)
      ∧ (∀ (o : Opts) (s : SessionState),
          (waitUntilUsedOnHost_obj ⟨[⟨.num 80, .str "example.com", .undef, .undef, .undef⟩]⟩ 0).2
            = .ok (o, s) →
          o.host = ((Store.mk [⟨.num 80, .str "example.com", .undef, .undef, .undef⟩]).getObj 0).host)
      ∧ (∀ (o : Opts) (s : SessionState),
          (waitUntilFree_obj ⟨[⟨.num 80, .str "example.com", .undef, .undef, .undef⟩]⟩ 0).2
            = .ok (o, s) → o.host = LOCALHOST)
      ∧ (∀ (o : Opts) (s : SessionState),
          (waitUntilUsed_obj ⟨[⟨.num 80, .str "example.com", .undef, .undef, .undef⟩]⟩ 0).2
            = .ok (o, s) → o.host = LOCALHOST)
      ∧ "waitUntilFreeOnHost" ∈ moduleExports
      ∧ "waitUntilUsedOnHost" ∈ moduleExports) :=
  ⟨by decide,
    C10_onhost_wrappers_preserve_host
      ⟨[⟨.num 80, .str "example.com", .undef, .undef, .undef⟩]⟩ 0 (by decide)⟩

end TcpPortUsed
